import Mathlib

/-
Shallow embedding of dlopes7/dynatrace-ca-sdm-bridge (webhook.go).

The program is a webhook bridge: it receives Dynatrace problem events and
opens / closes tickets in CA Service Desk Manager over SOAP.  The embedding
models the parsed data structures, the remote SOAP operations as calls
against an abstract backend (recording a trace of the calls issued), the
retry loop of gopkg.in/matryer/try.v1 used in SDMHandler, the storage.json
association store, and the SDMHandler request flow itself.
-/

namespace CASDM

/-- webhook.go: Config (config.json contents). -/
structure Config where
  ListenerPort : Nat
  LogLevel : String
  SDMWSDL : String
  SDMUsername : String
  SDMPassword : String
deriving DecidableEq, Repr

/-- webhook.go: Problem, the parsed inbound Dynatrace event. -/
structure Problem where
  Pcat : String
  ProblemID : String
  State : String
  ProblemDetailsText : String
  ProblemTitle : String
deriving DecidableEq, Repr

/-- webhook.go: Response, the JSON body handed back to the caller. -/
structure Response where
  error : Bool
  message : String
deriving DecidableEq, Repr

/-- webhook.go: LoginResponse from the CA SDM login operation. -/
structure LoginResponse where
  loginReturn : String
deriving DecidableEq, Repr

/-- webhook.go: GetHandleForUserIDResponse. -/
structure GetHandleForUserIDResponse where
  getHandleForUseridReturn : String
deriving DecidableEq, Repr

/-- webhook.go: CreateRequestResponse (the ticket reference: handle and number). -/
structure CreateRequestResponse where
  NewRequestHandle : String
  NewRequestNumber : String
deriving DecidableEq, Repr

/-- webhook.go: UpdateObjectResponse. -/
structure UpdateObjectResponse where
  updateObjectReturn : String
deriving DecidableEq, Repr

/-- webhook.go: Storage, the parsed contents of storage.json.  The Go map
is modelled as an association list (first binding wins on lookup,
in-place replacement on insert, mirroring Go map assignment). -/
structure Storage where
  Problems : List (String × CreateRequestResponse)
deriving DecidableEq, Repr

/-- A single SOAP call issued through the gosoap client, with the
parameters the program passes.  gosoap.Params entries such as
`\x7b"string": "customer"\x7d` are modelled as ("string", "customer") pairs. -/
inductive RemoteCall where
  | login (username password : String)
  | getHandleForUserid (sid userID : String)
  | createRequest (sid creatorHandle : String)
      (attrVals propertyValues : List (String × String)) (template : String)
      (attributes : List (String × String)) (newRequestHandle newRequestNumber : String)
  | updateObject (sid objectHandle : String)
      (attrVals attributes : List (String × String))
deriving DecidableEq, Repr

/-- The session id (sid) a remote call carries, none for login
(webhook.go passes the login token explicitly as sid to every
subsequent call). -/
def sidOf : RemoteCall → Option String
  | RemoteCall.login _ _ => none
  | RemoteCall.getHandleForUserid sid _ => some sid
  | RemoteCall.createRequest sid _ _ _ _ _ _ _ => some sid
  | RemoteCall.updateObject sid _ _ _ => some sid

/-- The remote CA SDM backend, abstracting one SOAP round trip per
operation (client.Call plus client.Unmarshal in webhook.go); an error
covers transport failure, fault, or unmarshal failure. -/
structure Backend where
  login : String → String → Except String LoginResponse
  getHandleForUserid : String → String → Except String GetHandleForUserIDResponse
  createRequest : String → String → List (String × String) → List (String × String) →
    String → List (String × String) → String → String → Except String CreateRequestResponse
  updateObject : String → String → List (String × String) → List (String × String) →
    Except String UpdateObjectResponse

/-- webhook.go openTicket, lines 399-423: the attrVals sequence passed to
createRequest. -/
def openTicketAttrVals (handle pcat description summary : String) : List (String × String) :=
  [("string", "customer"), ("string", handle),
   ("string", "category"), ("string", "pcat:" ++ pcat),
   ("string", "description"), ("string", description),
   ("string", "summary"), ("string", summary),
   ("string", "urgency"), ("string", "2"),
   ("string", "impact"), ("string", "4"),
   ("string", "group"), ("string", "5FA1B7BE4CFA2E4C9B19E115AE49A642"),
   ("string", "type"), ("string", "crt:182")]

/-- webhook.go closeTicket, lines 350-356: the attrVals passed to updateObject. -/
def closeTicketAttrVals : List (String × String) :=
  [("string", "status"), ("string", "RE"),
   ("string", "rootcause"), ("string", "rc:400174")]

/-- webhook.go closeTicket, lines 358-361: the attributes passed to updateObject. -/
def closeTicketAttributes : List (String × String) :=
  [("string", "status"), ("string", "rootcause")]

/-- webhook.go openTicket, lines 377-443: login, then getHandleForUserid with
the login token, then createRequest; returns the calls issued and the result. -/
def openTicket (cfg : Config) (b : Backend) (description summary pcat : String) :
    List RemoteCall × Except String CreateRequestResponse :=
  let c1 := RemoteCall.login cfg.SDMUsername cfg.SDMPassword
  match b.login cfg.SDMUsername cfg.SDMPassword with
  | Except.error e => ([c1], Except.error e)
  | Except.ok l =>
    let c2 := RemoteCall.getHandleForUserid l.loginReturn cfg.SDMUsername
    match b.getHandleForUserid l.loginReturn cfg.SDMUsername with
    | Except.error e => ([c1, c2], Except.error e)
    | Except.ok h =>
      let attrs := openTicketAttrVals h.getHandleForUseridReturn pcat description summary
      let c3 := RemoteCall.createRequest l.loginReturn h.getHandleForUseridReturn
        attrs [] "" [] "" ""
      match b.createRequest l.loginReturn h.getHandleForUseridReturn attrs [] "" [] "" "" with
      | Except.error e => ([c1, c2, c3], Except.error e)
      | Except.ok r => ([c1, c2, c3], Except.ok r)

/-- webhook.go closeTicket, lines 339-375: login, then updateObject with the
login token and the fixed close attributes. -/
def closeTicket (cfg : Config) (b : Backend) (objectHandle : String) :
    List RemoteCall × Except String UpdateObjectResponse :=
  let c1 := RemoteCall.login cfg.SDMUsername cfg.SDMPassword
  match b.login cfg.SDMUsername cfg.SDMPassword with
  | Except.error e => ([c1], Except.error e)
  | Except.ok l =>
    let c2 := RemoteCall.updateObject l.loginReturn objectHandle
      closeTicketAttrVals closeTicketAttributes
    match b.updateObject l.loginReturn objectHandle closeTicketAttrVals closeTicketAttributes with
    | Except.error e => ([c1, c2], Except.error e)
    | Except.ok r => ([c1, c2], Except.ok r)

/-- Association-list lookup mirroring the Go map read
`storage.Problems[problem.ProblemID]`. -/
def lookupProblem : List (String × CreateRequestResponse) → String → Option CreateRequestResponse
  | [], _ => none
  | (k, v) :: rest, id => if k = id then some v else lookupProblem rest id

/-- Association-list insert mirroring the Go map write
`storage.Problems[problem.ProblemID] = *ticket` (replace or append). -/
def insertProblem : List (String × CreateRequestResponse) → String → CreateRequestResponse →
    List (String × CreateRequestResponse)
  | [], id, t => [(id, t)]
  | (k, v) :: rest, id, t =>
    if k = id then (id, t) :: rest else (k, v) :: insertProblem rest id t

/-- webhook.go getTicketNumberFromStorage, lines 178-207.  The storage.json
file contents are modelled as the Storage value they decode to (a missing or
corrupt file decodes to the empty store); the JSON layer itself is not
re-modelled. -/
def getTicketNumberFromStorage (storage : Storage) (problem : Problem) :
    Option CreateRequestResponse :=
  lookupProblem storage.Problems problem.ProblemID

/-- webhook.go storeNewProblem, lines 209-237: read the whole store, set the
entry for the problem id, write the whole store back. -/
def storeNewProblem (storage : Storage) (problem : Problem) (ticket : CreateRequestResponse) :
    Storage :=
  { Problems := insertProblem storage.Problems problem.ProblemID ticket }

/-- The retry loop of the handler: try.Do (gopkg.in/matryer/try.v1) inlined
with the closures of webhook.go lines 119-127 and 149-157, which always ask
for a retry on error.  `attempt` is the 1-based attempt counter; `remaining`
is the number of further attempts the bound still allows (try.Do invokes the
operation while attempt <= MaxRetries, so the loop is entered with
remaining = MaxRetries - 1).  On exhaustion try.Do discards the last
operation error and returns its errMaxRetriesReached sentinel, whose Error()
text is "exceeded retry limit".  Returns (calls issued across all attempts,
number of invocations, final result). -/
def retryLoop {α : Type} (op : Nat → List RemoteCall × Except String α) :
    Nat → Nat → List RemoteCall × Nat × Except String α
  | attempt, 0 =>
    match (op attempt).2 with
    | Except.ok t => ((op attempt).1, 1, Except.ok t)
    | Except.error _ => ((op attempt).1, 1, Except.error "exceeded retry limit")
  | attempt, r + 1 =>
    match (op attempt).2 with
    | Except.ok t => ((op attempt).1, 1, Except.ok t)
    | Except.error _ =>
      let rr := retryLoop op (attempt + 1) r
      ((op attempt).1 ++ rr.1, rr.2.1 + 1, rr.2.2)

/-- gopkg.in/matryer/try.v1 Do, modelled directly: fn attempt returns
(retry again?, error); the loop breaks on retry = false or a nil error and
returns that error, otherwise re-attempts while attempt <= maxRetries and
returns the errMaxRetriesReached sentinel on exhaustion.  The second
component counts the invocations of fn. -/
def tryDoLoop (fn : Nat → Bool × Option String) : Nat → Nat → Option String × Nat
  | attempt, 0 =>
    if (fn attempt).1 = false ∨ (fn attempt).2 = none then ((fn attempt).2, 1)
    else (some "exceeded retry limit", 1)
  | attempt, r + 1 =>
    if (fn attempt).1 = false ∨ (fn attempt).2 = none then ((fn attempt).2, 1)
    else
      let rr := tryDoLoop fn (attempt + 1) r
      (rr.1, rr.2 + 1)

/-- try.Do entered at attempt 1 under the process-wide bound try.MaxRetries. -/
def tryDo (maxRetries : Nat) (fn : Nat → Bool × Option String) : Option String × Nat :=
  tryDoLoop fn 1 (maxRetries - 1)

/-- webhook.go line 117: the ticket title built for an OPEN problem. -/
def ticketTitle (problem : Problem) : String :=
  "Dynatrace - " ++ problem.ProblemTitle ++ " (Problem ID: " ++ problem.ProblemID ++
    ", State: " ++ problem.State ++ ")"

/-- The operation retried for an OPEN event (webhook.go line 122), indexed by
the attempt number so a backend may behave differently per attempt. -/
def openOp (cfg : Config) (backends : Nat → Backend) (problem : Problem) (i : Nat) :
    List RemoteCall × Except String CreateRequestResponse :=
  openTicket cfg (backends i) problem.ProblemDetailsText (ticketTitle problem) problem.Pcat

/-- The operation retried for a RESOLVED event (webhook.go line 152). -/
def closeOp (cfg : Config) (backends : Nat → Backend) (objectHandle : String) (i : Nat) :
    List RemoteCall × Except String UpdateObjectResponse :=
  closeTicket cfg (backends i) objectHandle

/-- What one SDMHandler invocation produces: the Response written to the
caller, the storage.json contents afterwards, and the remote calls issued. -/
structure HandlerResult where
  resp : Response
  storage : Storage
  calls : List RemoteCall
deriving DecidableEq, Repr

/-- webhook.go SDMHandler, OPEN branch (lines 115-143). -/
def handleOpen (cfg : Config) (maxRetries : Nat) (backends : Nat → Backend)
    (storage : Storage) (problem : Problem) : HandlerResult :=
  let rr := retryLoop (openOp cfg backends problem) 1 (maxRetries - 1)
  match rr.2.2 with
  | Except.error e =>
    let msg := "Could not open ticket after " ++ toString maxRetries ++
      " tries, error: " ++ e
    { resp := { error := true, message := msg },
      storage := storage, calls := rr.1 }
  | Except.ok ticket =>
    { resp := { error := false, message := "Opened ticket: " ++ ticket.NewRequestNumber },
      storage := storeNewProblem storage problem ticket, calls := rr.1 }

/-- webhook.go SDMHandler, RESOLVED branch (lines 144-173).  When the store
has no ticket for the problem, nothing happens and the initial zero-valued
Response is written. -/
def handleResolved (cfg : Config) (maxRetries : Nat) (backends : Nat → Backend)
    (storage : Storage) (problem : Problem) : HandlerResult :=
  match getTicketNumberFromStorage storage problem with
  | none => { resp := { error := false, message := "" }, storage := storage, calls := [] }
  | some ticket =>
    let rr := retryLoop (closeOp cfg backends ticket.NewRequestHandle) 1 (maxRetries - 1)
    match rr.2.2 with
    | Except.error e =>
      let msg := "Could not close ticket " ++ ticket.NewRequestNumber ++ " after " ++
        toString maxRetries ++ " tries, error: " ++ e
      { resp := { error := true, message := msg },
        storage := storage, calls := rr.1 }
    | Except.ok _ =>
      { resp := { error := false, message := "Closed ticket: " ++ ticket.NewRequestNumber },
        storage := storage, calls := rr.1 }

/-- webhook.go SDMHandler, lines 94-176, for an event that parsed: dispatch
on the state, falling through to the zero-valued Response for any other
state.  `backends i` is the remote backend behaviour seen by attempt i. -/
def SDMHandler (cfg : Config) (maxRetries : Nat) (backends : Nat → Backend)
    (storage : Storage) (problem : Problem) : HandlerResult :=
  if problem.State = "OPEN" then handleOpen cfg maxRetries backends storage problem
  else if problem.State = "RESOLVED" then handleResolved cfg maxRetries backends storage problem
  else { resp := { error := false, message := "" }, storage := storage, calls := [] }

/-- webhook.go main, line 503: the retry bound installed at startup is the
hard-coded constant 50; the loaded configuration does not contribute to it
(Config has no retry field). -/
def mainMaxRetries (_cfg : Config) : Nat := 50

/-! Concrete material used by witnesses and counterexamples. -/

/-- A concrete configuration. -/
def cfg0 : Config :=
  { ListenerPort := 8080, LogLevel := "INFO", SDMWSDL := "http://sdm/ws",
    SDMUsername := "sdmuser", SDMPassword := "sdmpass" }

/-- A backend on which every remote operation succeeds on every call. -/
def okBackend : Backend :=
  { login := fun _ _ => Except.ok { loginReturn := "SID1" },
    getHandleForUserid := fun _ _ => Except.ok { getHandleForUseridReturn := "HUSER" },
    createRequest := fun _ _ _ _ _ _ _ _ =>
      Except.ok { NewRequestHandle := "H1", NewRequestNumber := "INC001" },
    updateObject := fun _ _ _ _ => Except.ok { updateObjectReturn := "UPD" } }

/-- A backend on which every remote operation fails with diagnostic "boom". -/
def failBackend : Backend :=
  { login := fun _ _ => Except.error "boom",
    getHandleForUserid := fun _ _ => Except.error "boom",
    createRequest := fun _ _ _ _ _ _ _ _ => Except.error "boom",
    updateObject := fun _ _ _ _ => Except.error "boom" }

/-- The OPEN event of concrete scenario 1. -/
def problemOpen : Problem :=
  { Pcat := "", ProblemID := "P1", State := "OPEN",
    ProblemDetailsText := "disk at 95%", ProblemTitle := "Disk full" }

/-- The RESOLVED event of concrete scenario 2. -/
def problemResolved : Problem :=
  { Pcat := "", ProblemID := "P1", State := "RESOLVED",
    ProblemDetailsText := "", ProblemTitle := "" }

/-- A RESOLVED event whose problem id has no association. -/
def problemUnknown : Problem :=
  { Pcat := "", ProblemID := "P2", State := "RESOLVED",
    ProblemDetailsText := "", ProblemTitle := "" }

/-- An event with a state that is neither OPEN nor RESOLVED. -/
def problemOther : Problem :=
  { Pcat := "", ProblemID := "P3", State := "MERGED",
    ProblemDetailsText := "", ProblemTitle := "" }

/-- A ticket reference as returned by the concrete ok backend. -/
def ticket0 : CreateRequestResponse := { NewRequestHandle := "H1", NewRequestNumber := "INC001" }

/-- A store already associating P1 with ticket0. -/
def storage0 : Storage := { Problems := [("P1", ticket0)] }

/-! Helper lemmas about the retry loop and the store. -/

/-- If the operation succeeds at the current attempt, the loop stops at once. -/
theorem retryLoop_ok {α : Type} (op : Nat → List RemoteCall × Except String α)
    (attempt remaining : Nat) (t : α) (h : (op attempt).2 = Except.ok t) :
    retryLoop op attempt remaining = ((op attempt).1, 1, Except.ok t) := by
  cases remaining <;> simp only [retryLoop, h]

/-- If the operation fails with no attempts remaining, the loop returns the
errMaxRetriesReached sentinel. -/
theorem retryLoop_error_zero {α : Type} (op : Nat → List RemoteCall × Except String α)
    (attempt : Nat) (e : String) (h : (op attempt).2 = Except.error e) :
    retryLoop op attempt 0 = ((op attempt).1, 1, Except.error "exceeded retry limit") := by
  simp only [retryLoop, h]

/-- If the operation fails with attempts remaining, the loop re-attempts. -/
theorem retryLoop_error_succ {α : Type} (op : Nat → List RemoteCall × Except String α)
    (attempt r : Nat) (e : String) (h : (op attempt).2 = Except.error e) :
    retryLoop op attempt (r + 1) =
      ((op attempt).1 ++ (retryLoop op (attempt + 1) r).1,
       (retryLoop op (attempt + 1) r).2.1 + 1,
       (retryLoop op (attempt + 1) r).2.2) := by
  simp only [retryLoop, h]

/-- Retry characterization, success case: k failures then a success within the
bound give the success result after exactly k + 1 invocations, the trace being
the concatenation of the traces of attempts attempt, ..., attempt + k. -/
theorem retryLoop_success {α : Type} (op : Nat → List RemoteCall × Except String α) :
    ∀ (k attempt remaining : Nat), k ≤ remaining →
    (∀ i, i < k → ∃ e, (op (attempt + i)).2 = Except.error e) →
    ∀ t, (op (attempt + k)).2 = Except.ok t →
    retryLoop op attempt remaining =
      ((List.range' attempt (k + 1)).flatMap (fun i => (op i).1), k + 1, Except.ok t) := by
  intro k
  induction k with
  | zero =>
    intro attempt remaining _ _ t ht
    rw [Nat.add_zero] at ht
    rw [retryLoop_ok op attempt remaining t ht]
    simp [List.range'_one]
  | succ k ih =>
    intro attempt remaining hle hfail t ht
    obtain ⟨e0, he0⟩ := hfail 0 (Nat.succ_pos k)
    rw [Nat.add_zero] at he0
    cases remaining with
    | zero => omega
    | succ r =>
      rw [retryLoop_error_succ op attempt r e0 he0]
      have hfail' : ∀ i, i < k → ∃ e, (op (attempt + 1 + i)).2 = Except.error e := by
        intro i hi
        have h := hfail (i + 1) (by omega)
        have : attempt + (i + 1) = attempt + 1 + i := by omega
        rw [this] at h
        exact h
      have ht' : (op (attempt + 1 + k)).2 = Except.ok t := by
        have : attempt + (k + 1) = attempt + 1 + k := by omega
        rw [this] at ht
        exact ht
      rw [ih (attempt + 1) r (by omega) hfail' t ht']
      simp [List.range'_succ]

/-- Retry characterization, exhaustion case: if every attempt fails, the loop
performs remaining + 1 invocations and returns the errMaxRetriesReached
sentinel, losing the last operation error. -/
theorem retryLoop_exhaust {α : Type} (op : Nat → List RemoteCall × Except String α) :
    ∀ (remaining attempt : Nat), (∀ i, ∃ e, (op i).2 = Except.error e) →
    retryLoop op attempt remaining =
      ((List.range' attempt (remaining + 1)).flatMap (fun i => (op i).1), remaining + 1,
       Except.error "exceeded retry limit") := by
  intro remaining
  induction remaining with
  | zero =>
    intro attempt hfail
    obtain ⟨e, he⟩ := hfail attempt
    rw [retryLoop_error_zero op attempt e he]
    simp [List.range'_one]
  | succ r ih =>
    intro attempt hfail
    obtain ⟨e, he⟩ := hfail attempt
    rw [retryLoop_error_succ op attempt r e he, ih (attempt + 1) hfail]
    simp [List.range'_succ]

/-- The trace of the retry loop is always the concatenation of the traces of
the individual attempts it performed. -/
theorem retryLoop_trace {α : Type} (op : Nat → List RemoteCall × Except String α) :
    ∀ (remaining attempt : Nat),
    (retryLoop op attempt remaining).1 =
      (List.range' attempt ((retryLoop op attempt remaining).2.1)).flatMap
        (fun i => (op i).1) := by
  intro remaining
  induction remaining with
  | zero =>
    intro attempt
    cases h : (op attempt).2 with
    | ok t => rw [retryLoop_ok op attempt 0 t h]; simp [List.range'_one]
    | error e => rw [retryLoop_error_zero op attempt e h]; simp [List.range'_one]
  | succ r ih =>
    intro attempt
    cases h : (op attempt).2 with
    | ok t => rw [retryLoop_ok op attempt (r + 1) t h]; simp [List.range'_one]
    | error e =>
      rw [retryLoop_error_succ op attempt r e h]
      simp only [List.range'_succ]
      simp [ih (attempt + 1)]

/-- Looking up the key just inserted returns the inserted value (Go map
update-then-read). -/
theorem lookupProblem_insertProblem (l : List (String × CreateRequestResponse))
    (key : String) (t : CreateRequestResponse) :
    lookupProblem (insertProblem l key t) key = some t := by
  induction l with
  | nil => simp [insertProblem, lookupProblem]
  | cons hd tl ih =>
    obtain ⟨a, b⟩ := hd
    by_cases h : a = key
    · simp [insertProblem, lookupProblem, h]
    · simp [insertProblem, lookupProblem, h, ih]

/-- try.Do success case: if each attempt from the current one up to but not
including attempt + k asks for a retry with an error, and attempt + k
returns a nil error, the loop returns nil after exactly k + 1 invocations. -/
theorem tryDoLoop_success (fn : Nat → Bool × Option String) :
    ∀ (k attempt remaining : Nat), k ≤ remaining →
    (∀ i, i < k → (fn (attempt + i)).1 = true ∧ (fn (attempt + i)).2 ≠ none) →
    (fn (attempt + k)).2 = none →
    tryDoLoop fn attempt remaining = (none, k + 1) := by
  intro k
  induction k with
  | zero =>
    intro attempt remaining _ _ hs
    rw [Nat.add_zero] at hs
    cases remaining <;> simp [tryDoLoop, hs]
  | succ k ih =>
    intro attempt remaining hle hfail hs
    have h0 := hfail 0 (Nat.succ_pos k)
    rw [Nat.add_zero] at h0
    cases remaining with
    | zero => omega
    | succ r =>
      have hfail' : ∀ i, i < k → (fn (attempt + 1 + i)).1 = true ∧ (fn (attempt + 1 + i)).2 ≠ none := by
        intro i hi
        have h := hfail (i + 1) (by omega)
        have heq : attempt + (i + 1) = attempt + 1 + i := by omega
        rw [heq] at h
        exact h
      have hs' : (fn (attempt + 1 + k)).2 = none := by
        have heq : attempt + (k + 1) = attempt + 1 + k := by omega
        rw [heq] at hs
        exact hs
      simp only [tryDoLoop, h0.1, h0.2, ih (attempt + 1) r (by omega) hfail' hs']
      simp [h0.2]

/-- try.Do exhaustion case: if every attempt asks for a retry with an error,
the loop performs remaining + 1 invocations and returns the
errMaxRetriesReached sentinel. -/
theorem tryDoLoop_exhaust (fn : Nat → Bool × Option String) :
    ∀ (remaining attempt : Nat),
    (∀ i, (fn i).1 = true ∧ (fn i).2 ≠ none) →
    tryDoLoop fn attempt remaining = (some "exceeded retry limit", remaining + 1) := by
  intro remaining
  induction remaining with
  | zero =>
    intro attempt hfail
    simp [tryDoLoop, (hfail attempt).1, (hfail attempt).2]
  | succ r ih =>
    intro attempt hfail
    simp [tryDoLoop, (hfail attempt).1, (hfail attempt).2, ih (attempt + 1) hfail]

/-- SDMHandler dispatch: OPEN events go to the open branch. -/
theorem SDMHandler_open_eq (cfg : Config) (maxRetries : Nat) (backends : Nat → Backend)
    (storage : Storage) (problem : Problem) (hstate : problem.State = "OPEN") :
    SDMHandler cfg maxRetries backends storage problem =
      handleOpen cfg maxRetries backends storage problem := by
  unfold SDMHandler
  rw [if_pos hstate]

/-- SDMHandler dispatch: RESOLVED events go to the resolved branch. -/
theorem SDMHandler_resolved_eq (cfg : Config) (maxRetries : Nat) (backends : Nat → Backend)
    (storage : Storage) (problem : Problem) (hstate : problem.State = "RESOLVED") :
    SDMHandler cfg maxRetries backends storage problem =
      handleResolved cfg maxRetries backends storage problem := by
  unfold SDMHandler
  rw [hstate]
  rw [if_neg (by decide), if_pos rfl]

/-- SDMHandler dispatch: any other state falls through with the zero-valued
Response, touching neither the store nor the backend. -/
theorem SDMHandler_other_eq (cfg : Config) (maxRetries : Nat) (backends : Nat → Backend)
    (storage : Storage) (problem : Problem)
    (h1 : ¬ problem.State = "OPEN") (h2 : ¬ problem.State = "RESOLVED") :
    SDMHandler cfg maxRetries backends storage problem =
      { resp := { error := false, message := "" }, storage := storage, calls := [] } := by
  unfold SDMHandler
  rw [if_neg h1, if_neg h2]

/-- Open branch, retry loop succeeded: store the ticket, report its number. -/
theorem handleOpen_ok_eq (cfg : Config) (maxRetries : Nat) (backends : Nat → Backend)
    (storage : Storage) (problem : Problem) (t : CreateRequestResponse)
    (h : (retryLoop (openOp cfg backends problem) 1 (maxRetries - 1)).2.2 = Except.ok t) :
    handleOpen cfg maxRetries backends storage problem =
      { resp := { error := false, message := "Opened ticket: " ++ t.NewRequestNumber },
        storage := storeNewProblem storage problem t,
        calls := (retryLoop (openOp cfg backends problem) 1 (maxRetries - 1)).1 } := by
  simp only [handleOpen, h]

/-- Open branch, retry loop exhausted: storage untouched, error Response. -/
theorem handleOpen_error_eq (cfg : Config) (maxRetries : Nat) (backends : Nat → Backend)
    (storage : Storage) (problem : Problem) (e : String)
    (h : (retryLoop (openOp cfg backends problem) 1 (maxRetries - 1)).2.2 = Except.error e) :
    handleOpen cfg maxRetries backends storage problem =
      { resp :=
          { error := true,
            message := "Could not open ticket after " ++ toString maxRetries ++
              " tries, error: " ++ e },
        storage := storage,
        calls := (retryLoop (openOp cfg backends problem) 1 (maxRetries - 1)).1 } := by
  simp only [handleOpen, h]

/-- Resolved branch with no association: a silent no-op. -/
theorem handleResolved_none_eq (cfg : Config) (maxRetries : Nat) (backends : Nat → Backend)
    (storage : Storage) (problem : Problem)
    (h : getTicketNumberFromStorage storage problem = none) :
    handleResolved cfg maxRetries backends storage problem =
      { resp := { error := false, message := "" }, storage := storage, calls := [] } := by
  simp only [handleResolved, h]

/-- Resolved branch, close succeeded: storage untouched, stored number reported. -/
theorem handleResolved_ok_eq (cfg : Config) (maxRetries : Nat) (backends : Nat → Backend)
    (storage : Storage) (problem : Problem) (ticket : CreateRequestResponse)
    (u : UpdateObjectResponse)
    (hlook : getTicketNumberFromStorage storage problem = some ticket)
    (h : (retryLoop (closeOp cfg backends ticket.NewRequestHandle) 1 (maxRetries - 1)).2.2 =
      Except.ok u) :
    handleResolved cfg maxRetries backends storage problem =
      { resp := { error := false, message := "Closed ticket: " ++ ticket.NewRequestNumber },
        storage := storage,
        calls := (retryLoop (closeOp cfg backends ticket.NewRequestHandle) 1 (maxRetries - 1)).1 } := by
  simp only [handleResolved, hlook, h]

/-- Resolved branch, close exhausted: storage untouched, error Response. -/
theorem handleResolved_error_eq (cfg : Config) (maxRetries : Nat) (backends : Nat → Backend)
    (storage : Storage) (problem : Problem) (ticket : CreateRequestResponse) (e : String)
    (hlook : getTicketNumberFromStorage storage problem = some ticket)
    (h : (retryLoop (closeOp cfg backends ticket.NewRequestHandle) 1 (maxRetries - 1)).2.2 =
      Except.error e) :
    handleResolved cfg maxRetries backends storage problem =
      { resp :=
          { error := true,
            message := "Could not close ticket " ++ ticket.NewRequestNumber ++ " after " ++
              toString maxRetries ++ " tries, error: " ++ e },
        storage := storage,
        calls := (retryLoop (closeOp cfg backends ticket.NewRequestHandle) 1 (maxRetries - 1)).1 } := by
  simp only [handleResolved, hlook, h]

/-! The claims. -/

/-- C2 (amended: the exhaustion half needs maxAttempts at least 1): for every
operation and bound, if the operation fails on its first k invocations with
k less than maxAttempts and succeeds on the next, try.Do returns success and
invokes the operation exactly k + 1 times; and if the operation fails on
every invocation and maxAttempts is at least 1, try.Do invokes it exactly
maxAttempts times and reports exhaustion. -/
theorem tryDo_retry_policy (maxAttempts : Nat) (fn : Nat → Bool × Option String) :
    (∀ k, k < maxAttempts →
      (∀ i, 1 ≤ i → i ≤ k → (fn i).1 = true ∧ (fn i).2 ≠ none) →
      (fn (k + 1)).2 = none →
      tryDo maxAttempts fn = (none, k + 1))
    ∧ (1 ≤ maxAttempts →
      (∀ i, (fn i).1 = true ∧ (fn i).2 ≠ none) →
      tryDo maxAttempts fn = (some "exceeded retry limit", maxAttempts)) := by
  constructor
  · intro k hk hfail hs
    have hfail' : ∀ i, i < k → (fn (1 + i)).1 = true ∧ (fn (1 + i)).2 ≠ none := by
      intro i hi
      exact hfail (1 + i) (by omega) (by omega)
    have hs' : (fn (1 + k)).2 = none := by
      have heq : 1 + k = k + 1 := by omega
      rw [heq]
      exact hs
    exact tryDoLoop_success fn k 1 (maxAttempts - 1) (by omega) hfail' hs'
  · intro h1 hfail
    have h := tryDoLoop_exhaust fn (maxAttempts - 1) 1 hfail
    rw [tryDo, h]
    have heq : maxAttempts - 1 + 1 = maxAttempts := by omega
    rw [heq]

/-- C2 witness: with a bound of 3 and an operation failing on attempt 1 and
succeeding on attempt 2, try.Do succeeds after exactly 2 invocations. -/
theorem tryDo_retry_policy_witness :
    tryDo 3 (fun i => (true, if i = 2 then none else some "err")) = (none, 2) := by
  refine (tryDo_retry_policy 3 (fun i => (true, if i = 2 then none else some "err"))).1
    1 (by omega) ?_ (by simp)
  intro i h1 h2
  have heq : i = 1 := by omega
  subst heq
  simp

/-- C2 counterexample: with maxAttempts = 0 the claim's exhaustion half fails
on the code: try.Do still invokes the always-failing operation once (the loop
body runs before the bound is checked), so the number of invocations is 1,
not maxAttempts = 0. -/
theorem tryDo_zero_bound_counterexample :
    (tryDo 0 (fun _ => (true, some "err"))).2 = 1 ∧
    ¬ (tryDo 0 (fun _ => (true, some "err"))).2 = 0 := by
  constructor <;> decide

/-- C4 (amended: the bound is hard-coded, not configured): the retry bound
installed at startup is the process-wide constant 50, identical for every
call and independent of the loaded configuration, which supplies only the
listener port, log level, backend endpoint and credentials. -/
theorem maxRetries_process_wide_constant (c1 c2 : Config) :
    mainMaxRetries c1 = mainMaxRetries c2 ∧ mainMaxRetries c1 = 50 := by
  exact ⟨rfl, rfl⟩

/-- A configuration differing from cfgB in every field. -/
def cfgA : Config :=
  { ListenerPort := 1, LogLevel := "DEBUG", SDMWSDL := "http://a",
    SDMUsername := "u1", SDMPassword := "p1" }

/-- A configuration differing from cfgA in every field. -/
def cfgB : Config :=
  { ListenerPort := 2, LogLevel := "ERROR", SDMWSDL := "http://b",
    SDMUsername := "u2", SDMPassword := "p2" }

/-- C4 counterexample: two configurations differing in every field yield the
same retry bound 50, so the bound is not taken from the consumed
configuration (Config has no retry field; main hard-codes try.MaxRetries). -/
theorem maxRetries_not_from_config_counterexample :
    cfgA ≠ cfgB ∧ mainMaxRetries cfgA = mainMaxRetries cfgB ∧ mainMaxRetries cfgA = 50 := by
  exact ⟨by decide, rfl, rfl⟩

/-- C1: for every inbound OPEN event whose retried create flow succeeds
within the retry bound (k failed attempts with k < maxRetries, then a
success returning ticket t), the association store afterwards maps the
event's problem id to t (handle and number as returned by the create call),
and the Outcome is non-error with message "Opened ticket: <number>". -/
theorem open_success_outcome_and_store (cfg : Config) (maxRetries : Nat)
    (backends : Nat → Backend) (storage : Storage) (problem : Problem)
    (k : Nat) (t : CreateRequestResponse)
    (hstate : problem.State = "OPEN") (hk : k < maxRetries)
    (hfail : ∀ i, 1 ≤ i → i ≤ k → ∃ e, (openOp cfg backends problem i).2 = Except.error e)
    (hsucc : (openOp cfg backends problem (k + 1)).2 = Except.ok t) :
    (SDMHandler cfg maxRetries backends storage problem).resp =
      { error := false, message := "Opened ticket: " ++ t.NewRequestNumber } ∧
    lookupProblem (SDMHandler cfg maxRetries backends storage problem).storage.Problems
      problem.ProblemID = some t := by
  have hfail' : ∀ i, i < k → ∃ e, (openOp cfg backends problem (1 + i)).2 = Except.error e := by
    intro i hi
    exact hfail (1 + i) (by omega) (by omega)
  have hsucc' : (openOp cfg backends problem (1 + k)).2 = Except.ok t := by
    have heq : 1 + k = k + 1 := by omega
    rw [heq]
    exact hsucc
  have hloop := retryLoop_success (openOp cfg backends problem) k 1 (maxRetries - 1)
    (by omega) hfail' t hsucc'
  have h22 : (retryLoop (openOp cfg backends problem) 1 (maxRetries - 1)).2.2 =
      Except.ok t := by
    rw [hloop]
  rw [SDMHandler_open_eq cfg maxRetries backends storage problem hstate,
    handleOpen_ok_eq cfg maxRetries backends storage problem t h22]
  exact ⟨rfl, lookupProblem_insertProblem storage.Problems problem.ProblemID t⟩

/-- C1 witness, concrete scenario 1: the OPEN event for P1 against a backend
succeeding on the first attempt yields Outcome (false, "Opened ticket:
INC001"), and the store maps P1 to (H1, INC001). -/
theorem open_success_outcome_and_store_witness :
    (SDMHandler cfg0 50 (fun _ => okBackend) { Problems := [] } problemOpen).resp =
      { error := false, message := "Opened ticket: INC001" } ∧
    lookupProblem
      (SDMHandler cfg0 50 (fun _ => okBackend) { Problems := [] } problemOpen).storage.Problems
      "P1" = some ticket0 := by
  have h := open_success_outcome_and_store cfg0 50 (fun _ => okBackend) { Problems := [] }
    problemOpen 0 ticket0 rfl (by omega)
    (fun i h1 h2 => absurd (Nat.le_trans h1 h2) (by omega)) rfl
  exact ⟨h.1, h.2⟩

/-- C3 (amended: on exhaustion the message carries the attempt count together
with the retry library's generic "exceeded retry limit" sentinel — try.Do
discards the last operation error on exhaustion, so the last remote
diagnostic does not reach the Outcome). -/
theorem exhaustion_outcome_message (cfg : Config) (maxRetries : Nat)
    (backends : Nat → Backend) :
    (∀ storage problem, problem.State = "OPEN" →
      (∀ i, ∃ e, (openOp cfg backends problem i).2 = Except.error e) →
      (SDMHandler cfg maxRetries backends storage problem).resp =
        { error := true,
          message := "Could not open ticket after " ++ toString maxRetries ++
            " tries, error: exceeded retry limit" })
    ∧ (∀ storage problem ticket, problem.State = "RESOLVED" →
      getTicketNumberFromStorage storage problem = some ticket →
      (∀ i, ∃ e, (closeOp cfg backends ticket.NewRequestHandle i).2 = Except.error e) →
      (SDMHandler cfg maxRetries backends storage problem).resp =
        { error := true,
          message := "Could not close ticket " ++ ticket.NewRequestNumber ++ " after " ++
            toString maxRetries ++ " tries, error: exceeded retry limit" }) := by
  constructor
  · intro storage problem hstate hfail
    have hloop := retryLoop_exhaust (openOp cfg backends problem) (maxRetries - 1) 1 hfail
    have h22 : (retryLoop (openOp cfg backends problem) 1 (maxRetries - 1)).2.2 =
        Except.error "exceeded retry limit" := by
      rw [hloop]
    rw [SDMHandler_open_eq cfg maxRetries backends storage problem hstate,
      handleOpen_error_eq cfg maxRetries backends storage problem _ h22]
    simp only [String.append_assoc]
    rfl
  · intro storage problem ticket hstate hlook hfail
    have hloop := retryLoop_exhaust (closeOp cfg backends ticket.NewRequestHandle)
      (maxRetries - 1) 1 hfail
    have h22 : (retryLoop (closeOp cfg backends ticket.NewRequestHandle) 1 (maxRetries - 1)).2.2 =
        Except.error "exceeded retry limit" := by
      rw [hloop]
    rw [SDMHandler_resolved_eq cfg maxRetries backends storage problem hstate,
      handleResolved_error_eq cfg maxRetries backends storage problem ticket _ hlook h22]
    simp only [String.append_assoc]
    rfl

/-- C3 witness: with a bound of 2 and a backend failing every attempt, the
OPEN Outcome is the server-error Response whose message names 2 tries and
the exhaustion sentinel. -/
theorem exhaustion_outcome_message_witness :
    (SDMHandler cfg0 2 (fun _ => failBackend) storage0 problemOpen).resp =
      { error := true,
        message := "Could not open ticket after 2 tries, error: exceeded retry limit" } := by
  have h := (exhaustion_outcome_message cfg0 2 (fun _ => failBackend)).1 storage0
    problemOpen rfl (fun i => ⟨"boom", rfl⟩)
  exact h.trans (by decide)

/-- C3 counterexample: the backend fails every attempt with diagnostic
"boom", yet the failure Outcome's message is the generic "exceeded retry
limit" text and "boom" does not occur in it — the message does not carry the
last diagnostic error of the exhausted retry, contrary to the claim. -/
theorem exhaustion_message_lacks_last_error_counterexample :
    (SDMHandler cfg0 2 (fun _ => failBackend) { Problems := [] } problemOpen).resp =
      { error := true,
        message := "Could not open ticket after 2 tries, error: exceeded retry limit" } ∧
    ¬ ("boom".toList <:+:
      (SDMHandler cfg0 2 (fun _ => failBackend) { Problems := [] } problemOpen).resp.message.toList) := by
  constructor
  · decide
  · decide

/-- C5: a RESOLVED event with no association, or an event in any other
state, issues no remote call at all and returns the zero-valued Outcome
(error false, empty message), leaving the store unchanged. -/
theorem noop_paths_zero_outcome (cfg : Config) (maxRetries : Nat)
    (backends : Nat → Backend) (storage : Storage) (problem : Problem)
    (h : (problem.State = "RESOLVED" ∧ getTicketNumberFromStorage storage problem = none) ∨
      (¬ problem.State = "OPEN" ∧ ¬ problem.State = "RESOLVED")) :
    (SDMHandler cfg maxRetries backends storage problem).calls = [] ∧
    (SDMHandler cfg maxRetries backends storage problem).resp =
      { error := false, message := "" } ∧
    (SDMHandler cfg maxRetries backends storage problem).storage = storage := by
  rcases h with ⟨hstate, hnone⟩ | ⟨h1, h2⟩
  · rw [SDMHandler_resolved_eq cfg maxRetries backends storage problem hstate,
      handleResolved_none_eq cfg maxRetries backends storage problem hnone]
    exact ⟨rfl, rfl, rfl⟩
  · rw [SDMHandler_other_eq cfg maxRetries backends storage problem h1 h2]
    exact ⟨rfl, rfl, rfl⟩

/-- C5 witness, concrete scenario 3: a RESOLVED event for P2 with no prior
association makes no remote call and returns the default Outcome. -/
theorem noop_paths_zero_outcome_witness :
    (SDMHandler cfg0 50 (fun _ => okBackend) storage0 problemUnknown).calls = [] ∧
    (SDMHandler cfg0 50 (fun _ => okBackend) storage0 problemUnknown).resp =
      { error := false, message := "" } ∧
    (SDMHandler cfg0 50 (fun _ => okBackend) storage0 problemUnknown).storage = storage0 := by
  exact noop_paths_zero_outcome cfg0 50 (fun _ => okBackend) storage0 problemUnknown
    (Or.inl ⟨rfl, rfl⟩)

/-- C6: for every RESOLVED event whose problem id has an association and
whose retried close flow succeeds within the bound, the Outcome is non-error
with message "Closed ticket: <stored number>", and the store afterwards is
unchanged, still containing the association. -/
theorem resolved_close_success_outcome (cfg : Config) (maxRetries : Nat)
    (backends : Nat → Backend) (storage : Storage) (problem : Problem)
    (ticket : CreateRequestResponse) (k : Nat) (u : UpdateObjectResponse)
    (hstate : problem.State = "RESOLVED")
    (hlook : getTicketNumberFromStorage storage problem = some ticket)
    (hk : k < maxRetries)
    (hfail : ∀ i, 1 ≤ i → i ≤ k →
      ∃ e, (closeOp cfg backends ticket.NewRequestHandle i).2 = Except.error e)
    (hsucc : (closeOp cfg backends ticket.NewRequestHandle (k + 1)).2 = Except.ok u) :
    (SDMHandler cfg maxRetries backends storage problem).resp =
      { error := false, message := "Closed ticket: " ++ ticket.NewRequestNumber } ∧
    (SDMHandler cfg maxRetries backends storage problem).storage = storage ∧
    getTicketNumberFromStorage (SDMHandler cfg maxRetries backends storage problem).storage
      problem = some ticket := by
  have hfail' : ∀ i, i < k →
      ∃ e, (closeOp cfg backends ticket.NewRequestHandle (1 + i)).2 = Except.error e := by
    intro i hi
    exact hfail (1 + i) (by omega) (by omega)
  have hsucc' : (closeOp cfg backends ticket.NewRequestHandle (1 + k)).2 = Except.ok u := by
    have heq : 1 + k = k + 1 := by omega
    rw [heq]
    exact hsucc
  have hloop := retryLoop_success (closeOp cfg backends ticket.NewRequestHandle) k 1
    (maxRetries - 1) (by omega) hfail' u hsucc'
  have h22 : (retryLoop (closeOp cfg backends ticket.NewRequestHandle) 1 (maxRetries - 1)).2.2 =
      Except.ok u := by
    rw [hloop]
  rw [SDMHandler_resolved_eq cfg maxRetries backends storage problem hstate,
    handleResolved_ok_eq cfg maxRetries backends storage problem ticket u hlook h22]
  exact ⟨rfl, rfl, hlook⟩

/-- C6 witness, concrete scenario 2: the RESOLVED event for P1 after
scenario 1, against a backend succeeding on close, yields Outcome
(false, "Closed ticket: INC001") and the association for P1 survives. -/
theorem resolved_close_success_outcome_witness :
    (SDMHandler cfg0 50 (fun _ => okBackend) storage0 problemResolved).resp =
      { error := false, message := "Closed ticket: INC001" } ∧
    (SDMHandler cfg0 50 (fun _ => okBackend) storage0 problemResolved).storage = storage0 ∧
    getTicketNumberFromStorage
      (SDMHandler cfg0 50 (fun _ => okBackend) storage0 problemResolved).storage
      problemResolved = some ticket0 := by
  have h := resolved_close_success_outcome cfg0 50 (fun _ => okBackend) storage0
    problemResolved ticket0 0 { updateObjectReturn := "UPD" } rfl rfl (by omega)
    (fun i h1 h2 => absurd (Nat.le_trans h1 h2) (by omega)) rfl
  exact ⟨h.1, h.2.1, h.2.2⟩

/-- C9: the association store is written only on the success path of an OPEN
event: whenever the event is not OPEN, or the handler returns an error
Outcome, the store after handling equals the store before. -/
theorem storage_unchanged_off_success_path (cfg : Config) (maxRetries : Nat)
    (backends : Nat → Backend) (storage : Storage) (problem : Problem)
    (h : ¬ problem.State = "OPEN" ∨
      (SDMHandler cfg maxRetries backends storage problem).resp.error = true) :
    (SDMHandler cfg maxRetries backends storage problem).storage = storage := by
  by_cases hO : problem.State = "OPEN"
  · rcases h with h | h
    · exact absurd hO h
    · rw [SDMHandler_open_eq cfg maxRetries backends storage problem hO] at h ⊢
      cases h22 : (retryLoop (openOp cfg backends problem) 1 (maxRetries - 1)).2.2 with
      | ok t =>
        rw [handleOpen_ok_eq cfg maxRetries backends storage problem t h22] at h
        simp at h
      | error e =>
        rw [handleOpen_error_eq cfg maxRetries backends storage problem e h22]
  · by_cases hR : problem.State = "RESOLVED"
    · rw [SDMHandler_resolved_eq cfg maxRetries backends storage problem hR]
      cases hlook : getTicketNumberFromStorage storage problem with
      | none =>
        rw [handleResolved_none_eq cfg maxRetries backends storage problem hlook]
      | some ticket =>
        cases h22 : (retryLoop (closeOp cfg backends ticket.NewRequestHandle) 1
            (maxRetries - 1)).2.2 with
        | ok u =>
          rw [handleResolved_ok_eq cfg maxRetries backends storage problem ticket u hlook h22]
        | error e =>
          rw [handleResolved_error_eq cfg maxRetries backends storage problem ticket e hlook h22]
    · rw [SDMHandler_other_eq cfg maxRetries backends storage problem hO hR]

/-- C9 witness: an event in state MERGED leaves the store exactly as it was. -/
theorem storage_unchanged_off_success_path_witness :
    (SDMHandler cfg0 50 (fun _ => okBackend) storage0 problemOther).storage = storage0 := by
  exact storage_unchanged_off_success_path cfg0 50 (fun _ => okBackend) storage0 problemOther
    (Or.inl (by decide))

/-- C8: storing an association and looking the same problem id up returns
exactly the stored ticket reference; the store written back is the full
snapshot containing it, so reloading yields the same mapping. -/
theorem store_roundtrip_lookup (storage : Storage) (problem : Problem)
    (ticket : CreateRequestResponse) :
    getTicketNumberFromStorage (storeNewProblem storage problem ticket) problem =
      some ticket := by
  simp [getTicketNumberFromStorage, storeNewProblem, lookupProblem_insertProblem]

/-- C7: the create flow performs login, then getHandleForUserid with the
login token, then createRequest whose attrVals is exactly the ordered
customer / category "pcat:<Pcat>" / description / summary / urgency "2" /
impact "4" / group "5FA1B7BE4CFA2E4C9B19E115AE49A642" / type "crt:182"
sequence; the close flow performs login then updateObject with attrVals
exactly status "RE", rootcause "rc:400174" and attributes exactly status,
rootcause. -/
theorem remote_flow_call_shapes (cfg : Config) :
    (∀ (b : Backend) (description summary pcat : String) (l : LoginResponse)
      (hdl : GetHandleForUserIDResponse),
      b.login cfg.SDMUsername cfg.SDMPassword = Except.ok l →
      b.getHandleForUserid l.loginReturn cfg.SDMUsername = Except.ok hdl →
      (openTicket cfg b description summary pcat).1 =
        [RemoteCall.login cfg.SDMUsername cfg.SDMPassword,
         RemoteCall.getHandleForUserid l.loginReturn cfg.SDMUsername,
         RemoteCall.createRequest l.loginReturn hdl.getHandleForUseridReturn
           [("string", "customer"), ("string", hdl.getHandleForUseridReturn),
            ("string", "category"), ("string", "pcat:" ++ pcat),
            ("string", "description"), ("string", description),
            ("string", "summary"), ("string", summary),
            ("string", "urgency"), ("string", "2"),
            ("string", "impact"), ("string", "4"),
            ("string", "group"), ("string", "5FA1B7BE4CFA2E4C9B19E115AE49A642"),
            ("string", "type"), ("string", "crt:182")]
           [] "" [] "" ""])
    ∧ (∀ (b : Backend) (objectHandle : String) (l : LoginResponse),
      b.login cfg.SDMUsername cfg.SDMPassword = Except.ok l →
      (closeTicket cfg b objectHandle).1 =
        [RemoteCall.login cfg.SDMUsername cfg.SDMPassword,
         RemoteCall.updateObject l.loginReturn objectHandle
           [("string", "status"), ("string", "RE"),
            ("string", "rootcause"), ("string", "rc:400174")]
           [("string", "status"), ("string", "rootcause")]]) := by
  constructor
  · intro b description summary pcat l hdl hlogin hhdl
    cases hc : b.createRequest l.loginReturn hdl.getHandleForUseridReturn
        (openTicketAttrVals hdl.getHandleForUseridReturn pcat description summary)
        [] "" [] "" "" with
    | ok r =>
      simp only [openTicket, hlogin, hhdl, hc]
      simp [openTicketAttrVals]
    | error e =>
      simp only [openTicket, hlogin, hhdl, hc]
      simp [openTicketAttrVals]
  · intro b objectHandle l hlogin
    cases hu : b.updateObject l.loginReturn objectHandle closeTicketAttrVals
        closeTicketAttributes with
    | ok r =>
      simp only [closeTicket, hlogin, hu]
      simp [closeTicketAttrVals, closeTicketAttributes]
    | error e =>
      simp only [closeTicket, hlogin, hu]
      simp [closeTicketAttrVals, closeTicketAttributes]

/-- C7 witness: against the concrete ok backend, the create flow issues
exactly login, getHandleForUserid, createRequest with the full attrVals
sequence, and the close flow issues exactly login, updateObject with the
fixed close attributes. -/
theorem remote_flow_call_shapes_witness :
    (openTicket cfg0 okBackend "d" "s" "pc").1 =
      [RemoteCall.login "sdmuser" "sdmpass",
       RemoteCall.getHandleForUserid "SID1" "sdmuser",
       RemoteCall.createRequest "SID1" "HUSER"
         [("string", "customer"), ("string", "HUSER"),
          ("string", "category"), ("string", "pcat:pc"),
          ("string", "description"), ("string", "d"),
          ("string", "summary"), ("string", "s"),
          ("string", "urgency"), ("string", "2"),
          ("string", "impact"), ("string", "4"),
          ("string", "group"), ("string", "5FA1B7BE4CFA2E4C9B19E115AE49A642"),
          ("string", "type"), ("string", "crt:182")]
         [] "" [] "" ""] ∧
    (closeTicket cfg0 okBackend "H1").1 =
      [RemoteCall.login "sdmuser" "sdmpass",
       RemoteCall.updateObject "SID1" "H1"
         [("string", "status"), ("string", "RE"),
          ("string", "rootcause"), ("string", "rc:400174")]
         [("string", "status"), ("string", "rootcause")]] := by
  have h := remote_flow_call_shapes cfg0
  refine ⟨?_, ?_⟩
  · have h1 := h.1 okBackend "d" "s" "pc" { loginReturn := "SID1" }
      { getHandleForUseridReturn := "HUSER" } rfl rfl
    exact h1.trans (by decide)
  · exact h.2 okBackend "H1" { loginReturn := "SID1" } rfl

/-- C10: every retry attempt begins with a fresh login and a session token
never crosses attempts: the retried create and close traces are the
concatenation of the per-attempt traces; each per-attempt trace begins with
a login call for the configured credentials; and every non-login call of an
attempt carries exactly the session token returned by that same attempt's
login. -/
theorem fresh_login_per_attempt (cfg : Config) (backends : Nat → Backend)
    (problem : Problem) (objectHandle : String) :
    (∀ attempt remaining,
      (retryLoop (openOp cfg backends problem) attempt remaining).1 =
        (List.range' attempt
          ((retryLoop (openOp cfg backends problem) attempt remaining).2.1)).flatMap
          (fun i => (openOp cfg backends problem i).1))
    ∧ (∀ (b : Backend) (description summary pcat : String),
      ((openTicket cfg b description summary pcat).1).head? =
        some (RemoteCall.login cfg.SDMUsername cfg.SDMPassword))
    ∧ (∀ (b : Backend) (description summary pcat : String) (l : LoginResponse),
      b.login cfg.SDMUsername cfg.SDMPassword = Except.ok l →
      ∀ c ∈ (openTicket cfg b description summary pcat).1,
        sidOf c = none ∨ sidOf c = some l.loginReturn)
    ∧ (∀ attempt remaining,
      (retryLoop (closeOp cfg backends objectHandle) attempt remaining).1 =
        (List.range' attempt
          ((retryLoop (closeOp cfg backends objectHandle) attempt remaining).2.1)).flatMap
          (fun i => (closeOp cfg backends objectHandle i).1))
    ∧ (∀ (b : Backend) (oh : String),
      ((closeTicket cfg b oh).1).head? =
        some (RemoteCall.login cfg.SDMUsername cfg.SDMPassword))
    ∧ (∀ (b : Backend) (oh : String) (l : LoginResponse),
      b.login cfg.SDMUsername cfg.SDMPassword = Except.ok l →
      ∀ c ∈ (closeTicket cfg b oh).1,
        sidOf c = none ∨ sidOf c = some l.loginReturn) := by
  refine ⟨?_, ?_, ?_, ?_, ?_, ?_⟩
  · intro attempt remaining
    exact retryLoop_trace (openOp cfg backends problem) remaining attempt
  · intro b description summary pcat
    cases hb : b.login cfg.SDMUsername cfg.SDMPassword with
    | error e => simp [openTicket, hb]
    | ok l =>
      cases hh : b.getHandleForUserid l.loginReturn cfg.SDMUsername with
      | error e => simp [openTicket, hb, hh]
      | ok hdl =>
        cases hc : b.createRequest l.loginReturn hdl.getHandleForUseridReturn
            (openTicketAttrVals hdl.getHandleForUseridReturn pcat description summary)
            [] "" [] "" "" with
        | ok r => simp [openTicket, hb, hh, hc]
        | error e => simp [openTicket, hb, hh, hc]
  · intro b description summary pcat l hb c hc
    cases hh : b.getHandleForUserid l.loginReturn cfg.SDMUsername with
    | error e =>
      simp [openTicket, hb, hh] at hc
      rcases hc with rfl | rfl <;> simp [sidOf]
    | ok hdl =>
      cases hcr : b.createRequest l.loginReturn hdl.getHandleForUseridReturn
          (openTicketAttrVals hdl.getHandleForUseridReturn pcat description summary)
          [] "" [] "" "" with
      | ok r =>
        simp [openTicket, hb, hh, hcr] at hc
        rcases hc with rfl | rfl | rfl <;> simp [sidOf]
      | error e =>
        simp [openTicket, hb, hh, hcr] at hc
        rcases hc with rfl | rfl | rfl <;> simp [sidOf]
  · intro attempt remaining
    exact retryLoop_trace (closeOp cfg backends objectHandle) remaining attempt
  · intro b oh
    cases hb : b.login cfg.SDMUsername cfg.SDMPassword with
    | error e => simp [closeTicket, hb]
    | ok l =>
      cases hu : b.updateObject l.loginReturn oh closeTicketAttrVals closeTicketAttributes with
      | ok r => simp [closeTicket, hb, hu]
      | error e => simp [closeTicket, hb, hu]
  · intro b oh l hb c hc
    cases hu : b.updateObject l.loginReturn oh closeTicketAttrVals closeTicketAttributes with
    | ok r =>
      simp [closeTicket, hb, hu] at hc
      rcases hc with rfl | rfl <;> simp [sidOf]
    | error e =>
      simp [closeTicket, hb, hu] at hc
      rcases hc with rfl | rfl <;> simp [sidOf]

/-- C10 witness: for the concrete ok backend, the close retry trace is the
concatenation of the per-attempt close traces, the close trace begins with
the login call, and the updateObject call in it carries the session token
SID1 returned by that attempt's login. -/
theorem fresh_login_per_attempt_witness :
    (retryLoop (closeOp cfg0 (fun _ => okBackend) "H1") 1 4).1 =
      (List.range' 1 ((retryLoop (closeOp cfg0 (fun _ => okBackend) "H1") 1 4).2.1)).flatMap
        (fun i => (closeOp cfg0 (fun _ => okBackend) "H1" i).1) ∧
    ((closeTicket cfg0 okBackend "H1").1).head? =
      some (RemoteCall.login "sdmuser" "sdmpass") ∧
    (sidOf (RemoteCall.updateObject "SID1" "H1" closeTicketAttrVals closeTicketAttributes) =
        none ∨
      sidOf (RemoteCall.updateObject "SID1" "H1" closeTicketAttrVals closeTicketAttributes) =
        some "SID1") := by
  have h := fresh_login_per_attempt cfg0 (fun _ => okBackend) problemOpen "H1"
  refine ⟨h.2.2.2.1 1 4, h.2.2.2.2.1 okBackend "H1", ?_⟩
  have hm : RemoteCall.updateObject "SID1" "H1" closeTicketAttrVals closeTicketAttributes ∈
      (closeTicket cfg0 okBackend "H1").1 := by
    decide
  exact h.2.2.2.2.2 okBackend "H1" { loginReturn := "SID1" } rfl _ hm

end CASDM
